import Mathlib

/-
Shallow embedding of src/main.py: a webhook-driven chat relay
(Telegram webhook -> Brave search -> OpenAI summarization -> replies).

External effects are made explicit: the outcome of each outbound HTTP
call (search provider, summarization provider) and of each chat reply
send is supplied by an environment, and each handler returns the trace
of events it produced together with a flag saying whether an exception
escaped the handler.
-/

/-- One observable event of a pipeline run: an outbound call to the
search provider, an outbound call to the summarization provider, or a
successfully sent chat reply. -/
inductive Event where
  | braveCall (q : String)
  | openaiCall (t : String)
  | reply (t : String)
deriving DecidableEq, Repr

/-- One entry of data["web"]["results"] as read by brave_search
(src/main.py lines 63-68): a JSON object whose "title" and "url" keys
may each be absent (r.get with a default). -/
structure BraveResult where
  title : Option String
  url : Option String
deriving DecidableEq, Repr

/-- Outcome of the outbound GET in brave_search (src/main.py lines 59-61):
an httpx.HTTPError (timeout, connection failure, non-2xx status), any
other exception raised while reading the response (malformed JSON body,
unexpected shape), or a parsed body. In the parsed body, none stands for
a body without the "web"/"results" keys (line 63). -/
inductive BraveResp where
  | httpError
  | otherExc
  | ok (webResults : Option (List BraveResult))
deriving DecidableEq, Repr

/-- Outcome of the outbound POST in summarize_with_openai (src/main.py
lines 102-104). In the ok case, the list holds the "choices" of the
response body ([] covers both a missing "choices" key and an empty list,
line 106); each choice is some content when
choice["message"]["content"] is readable, and none when reading it
raises (caught at line 113). -/
inductive OpenAIResp where
  | httpError
  | otherExc
  | ok (choices : List (Option String))
deriving DecidableEq, Repr

/-- Rendering of one search result (src/main.py line 66):
f-string title - url with the r.get defaults. -/
def renderBraveResult (r : BraveResult) : String :=
  r.title.getD "No title" ++ " - " ++ r.url.getD "No URL"

/-- The string returned by brave_search for a given provider outcome
(src/main.py lines 58-76): the newline-joined digest of the first three
results, the no-results sentinel, or one of the two failure sentinels
produced by the except clauses. -/
def braveResult : BraveResp → String
  | BraveResp.httpError => "Search service temporarily unavailable."
  | BraveResp.otherExc => "An error occurred during search."
  | BraveResp.ok none => "No search results found."
  | BraveResp.ok (some rs) =>
    if rs.isEmpty then "No search results found."
    else String.intercalate "\n" ((rs.take 3).map renderBraveResult)

/-- brave_search (src/main.py lines 50-76): issues one outbound GET with
the query, then turns the outcome into a string; no exception escapes. -/
def brave_search (query : String) (resp : BraveResp) : List Event × String :=
  ([Event.braveCall query], braveResult resp)

/-- The string returned by summarize_with_openai for a given provider
outcome (src/main.py lines 101-115): the first generated choice content,
the no-choices sentinel, or one of the failure sentinels (reading a
malformed first choice raises inside the try and lands in the except
Exception clause, line 113). -/
def openaiResult : OpenAIResp → String
  | OpenAIResp.httpError => "Summary service temporarily unavailable."
  | OpenAIResp.otherExc => "An error occurred while generating summary."
  | OpenAIResp.ok [] => "Unable to generate summary."
  | OpenAIResp.ok (some c :: _) => c
  | OpenAIResp.ok (none :: _) => "An error occurred while generating summary."

/-- summarize_with_openai (src/main.py lines 79-115): issues one
outbound POST with the text, then turns the outcome into a string; no
exception escapes. -/
def summarize_with_openai (text : String) (resp : OpenAIResp) : List Event × String :=
  ([Event.openaiCall text], openaiResult resp)

/-- Drop leading whitespace characters from a character list. -/
def dropLeadingWs : List Char → List Char
  | [] => []
  | c :: tl => if c.isWhitespace then dropLeadingWs tl else c :: tl

/-- Python str.strip(): remove leading and trailing whitespace. -/
def pyStrip (s : String) : String :=
  String.mk ((dropLeadingWs ((dropLeadingWs s.data).reverse)).reverse)

/-- Python str.lower() over the characters of the string. -/
def pyLower (s : String) : String :=
  String.mk (s.data.map Char.toLower)

/-- Whether pat occurs as a contiguous run inside s. -/
def occursIn (pat : List Char) : List Char → Bool
  | [] => pat.isEmpty
  | c :: tl => pat.isPrefixOf (c :: tl) || occursIn pat tl

/-- Python substring test pat in s, specialized to strings. -/
def containsSub (s pat : String) : Bool := occursIn pat.data s.data

/-- The failure-sentinel check of handle_message (src/main.py line 132):
"error" in results.lower() or "unavailable" in results.lower(). -/
def hasFailureMarker (results : String) : Bool :=
  containsSub (pyLower results) "error" || containsSub (pyLower results) "unavailable"

/-- The Telegram message object as read by handle_message: only the text
field matters; none models a message without text. -/
structure Msg where
  text : Option String
deriving DecidableEq, Repr

/-- The Telegram update object as read by handle_message: only the
message field matters; none models an update without a message. -/
structure TgUpdate where
  message : Option Msg
deriving DecidableEq, Repr

/-- Environment of one handle_message run: the outcome of the (at most
one) search call, of the (at most one) summarization call, and whether
the k-th reply-send attempt of this run succeeds (false means
reply_text raises). -/
structure Env where
  brave : BraveResp
  openai : OpenAIResp
  sendOk : Nat → Bool

/-- The try block of handle_message (src/main.py lines 119-141).
Returns the trace of events produced, the number of reply-send attempts
made, and whether an exception was raised (every raise point is a
reply_text send; brave_search and summarize_with_openai swallow their
own exceptions). Mirrors the source line by line: the no-message and
falsy-text guards return silently (line 120; note that in Python an
empty string is falsy, so text = "" also returns silently), blank
trimmed text prompts for a query (lines 123-126), then ack-search,
search, the failure-marker short-circuit (lines 129-134), ack-summary,
summarize, and the final reply (lines 137-141). -/
def handleBody (u : TgUpdate) (env : Env) : List Event × Nat × Bool :=
  match u.message with
  | none => ([], 0, false)
  | some m =>
    match m.text with
    | none => ([], 0, false)
    | some t =>
      if t = "" then ([], 0, false)
      else
        let query := pyStrip t
        if query = "" then
          if env.sendOk 0 then ([Event.reply "Please send a search query."], 1, false)
          else ([], 1, true)
        else
          if env.sendOk 0 then
            let bs := brave_search query env.brave
            let results := bs.2
            let tr := Event.reply "🔎 Searching..." :: bs.1
            if hasFailureMarker results then
              if env.sendOk 1 then (tr ++ [Event.reply results], 2, false)
              else (tr, 2, true)
            else
              if env.sendOk 1 then
                let sm := summarize_with_openai results env.openai
                let tr2 := tr ++ [Event.reply "💡 Generating summary..."] ++ sm.1
                if env.sendOk 2 then (tr2 ++ [Event.reply sm.2], 3, false)
                else (tr2, 3, true)
              else (tr, 2, true)
          else ([], 1, true)

/-- handle_message (src/main.py lines 118-145): the try block, and the
except Exception clause that sends one generic apology reply. If that
apology send itself raises, the new exception escapes the handler
(flag true). -/
def handle_message (u : TgUpdate) (env : Env) : List Event × Bool :=
  let r := handleBody u env
  if r.2.2 then
    if env.sendOk r.2.1 then
      (r.1 ++ [Event.reply "Sorry, an error occurred. Please try again."], false)
    else (r.1, true)
  else (r.1, false)

/-- The body of a POST /webhook request as telegram_webhook consumes it
(src/main.py lines 152-154): not JSON at all (request.json() raises),
JSON on which Update.de_json raises, JSON on which Update.de_json
returns None (e.g. the body null, or a falsy dict), or a parsed update. -/
inductive WebhookBody where
  | notJson
  | jsonBadUpdate
  | jsonNotUpdate
  | validUpdate (u : TgUpdate)

/-- An exception inside the try block of telegram_webhook: the
HTTPException raised at line 160, or any other exception. -/
inductive Exc where
  | httpExc (code : Nat)
  | otherExc
deriving DecidableEq, Repr

/-- The try block of telegram_webhook (src/main.py lines 152-160).
For a parsed update, process_update dispatches to handle_message; the
Telegram dispatch machinery absorbs exceptions escaping the handler, so
the try block still completes. For a body on which de_json returns
None, the source raises HTTPException(status_code=400) at line 160. -/
def webhookTryBlock (body : WebhookBody) (env : Env) : Except Exc Unit × List Event :=
  match body with
  | WebhookBody.notJson => (Except.error Exc.otherExc, [])
  | WebhookBody.jsonBadUpdate => (Except.error Exc.otherExc, [])
  | WebhookBody.jsonNotUpdate => (Except.error (Exc.httpExc 400), [])
  | WebhookBody.validUpdate u => (Except.ok (), (handle_message u env).1)

/-- The HTTP response of the webhook endpoint. -/
inductive HttpResp where
  | ok200
  | err (code : Nat)
deriving DecidableEq, Repr

/-- telegram_webhook (src/main.py lines 150-164): runs the try block;
on success answers the 200 body ok true. The except Exception clause at
line 162 catches every exception raised in the try block — including
the HTTPException(400) raised at line 160, since fastapi.HTTPException
derives from Exception — and answers HTTPException(status_code=500). -/
def telegram_webhook (body : WebhookBody) (env : Env) : HttpResp × List Event :=
  match webhookTryBlock body env with
  | (Except.ok _, tr) => (HttpResp.ok200, tr)
  | (Except.error _, tr) => (HttpResp.err 500, tr)

/-- One completed action of the lifespan shutdown path. -/
inductive SEvent where
  | botStopped
  | clientClosed
deriving DecidableEq, Repr

/-- The shutdown half of lifespan (src/main.py lines 43-44): await
telegram_app.stop() then await http_client.aclose(), sequentially, with
no try/finally. The two Booleans say whether each await raises; the
result is the list of completed actions and whether an exception
escaped. If stop raises, aclose is never reached. -/
def lifespan_shutdown (stopRaises closeRaises : Bool) : List SEvent × Bool :=
  if stopRaises then ([], true)
  else if closeRaises then ([SEvent.botStopped], true)
  else ([SEvent.botStopped, SEvent.clientClosed], false)

/-- The chat replies successfully sent in a trace, in order. -/
def replies : List Event → List String
  | [] => []
  | Event.reply s :: tl => s :: replies tl
  | Event.braveCall _ :: tl => replies tl
  | Event.openaiCall _ :: tl => replies tl

/-- Number of outbound calls to the search provider in a trace. -/
def braveCalls : List Event → Nat
  | [] => 0
  | Event.braveCall _ :: tl => braveCalls tl + 1
  | Event.reply _ :: tl => braveCalls tl
  | Event.openaiCall _ :: tl => braveCalls tl

/-- Number of outbound calls to the summarization provider in a trace. -/
def openaiCalls : List Event → Nat
  | [] => 0
  | Event.openaiCall _ :: tl => openaiCalls tl + 1
  | Event.reply _ :: tl => openaiCalls tl
  | Event.braveCall _ :: tl => openaiCalls tl

/-- Splitting the successfully sent replies of a concatenated trace. -/
theorem replies_append (l1 l2 : List Event) :
    replies (l1 ++ l2) = replies l1 ++ replies l2 := by
  induction l1 with
  | nil => rfl
  | cons e tl ih => cases e <;> simp [replies, ih]

/-- When the try block of handle_message finishes without raising, the
handler returns its trace unchanged and nothing escapes. -/
theorem handle_message_eq_of_body (u : TgUpdate) (env : Env) (tr : List Event) (k : Nat)
    (h : handleBody u env = (tr, k, false)) :
    handle_message u env = (tr, false) := by
  simp [handle_message, h]

/-- Trace of the try block on the short-circuit path: non-blank text, a
search result matching the failure-marker check, and both sends
succeeding. -/
theorem handleBody_marker (t : String) (env : Env) (ht : t ≠ "") (hq : pyStrip t ≠ "")
    (h0 : env.sendOk 0 = true) (hmark : hasFailureMarker (braveResult env.brave) = true)
    (h1 : env.sendOk 1 = true) :
    handleBody ⟨some ⟨some t⟩⟩ env =
      ([Event.reply "🔎 Searching...", Event.braveCall (pyStrip t),
        Event.reply (braveResult env.brave)], 2, false) := by
  simp [handleBody, brave_search, ht, hq, h0, hmark, h1]

/-- Trace of the try block on the full path: non-blank text, a search
result not matching the failure-marker check, and all three sends
succeeding. -/
theorem handleBody_success (t : String) (env : Env) (ht : t ≠ "") (hq : pyStrip t ≠ "")
    (h0 : env.sendOk 0 = true) (hmark : hasFailureMarker (braveResult env.brave) = false)
    (h1 : env.sendOk 1 = true) (h2 : env.sendOk 2 = true) :
    handleBody ⟨some ⟨some t⟩⟩ env =
      ([Event.reply "🔎 Searching...", Event.braveCall (pyStrip t),
        Event.reply "💡 Generating summary...", Event.openaiCall (braveResult env.brave),
        Event.reply (openaiResult env.openai)], 3, false) := by
  simp [handleBody, brave_search, summarize_with_openai, ht, hq, h0, hmark, h1, h2]

/-- Trace of the try block on the blank-text path: non-empty text whose
trimmed form is empty, with the prompt send succeeding. -/
theorem handleBody_prompt (t : String) (env : Env) (ht : t ≠ "") (hq : pyStrip t = "")
    (h0 : env.sendOk 0 = true) :
    handleBody ⟨some ⟨some t⟩⟩ env =
      ([Event.reply "Please send a search query."], 1, false) := by
  simp [handleBody, ht, hq, h0]

/-- Claim C1, evaluated at the failing inputs. The claim says a POST
/webhook request whose body is an unparseable update payload is answered
with HTTP 400; in the source, the except Exception clause at line 162
also catches the HTTPException(400) raised at line 160 (HTTPException
derives from Exception), so every unparseable body — whether the JSON
parse raises, de_json raises, or de_json returns None — is answered
with HTTP 500 instead. The no-replies and no-provider-calls part of the
claim does hold: the trace is empty. -/
theorem C1_webhook_unparseable_gives_500 :
    telegram_webhook WebhookBody.jsonNotUpdate
      ⟨BraveResp.httpError, OpenAIResp.httpError, fun _ => true⟩ = (HttpResp.err 500, []) ∧
    telegram_webhook WebhookBody.notJson
      ⟨BraveResp.httpError, OpenAIResp.httpError, fun _ => true⟩ = (HttpResp.err 500, []) ∧
    telegram_webhook WebhookBody.jsonBadUpdate
      ⟨BraveResp.httpError, OpenAIResp.httpError, fun _ => true⟩ = (HttpResp.err 500, []) := by
  decide

/-- Claim C2 counterexample: an update carrying the text "hi" in an
environment where every reply send raises. The first send (the search
acknowledgement) raises, the exception is caught, the apology send also
raises, and the handler is left by the new exception with zero replies
sent — the claim requires exactly one apology reply and at least one
reply for every text-carrying update. -/
theorem C2_counterexample :
    (handleBody ⟨some ⟨some "hi"⟩⟩
      ⟨BraveResp.ok none, OpenAIResp.ok [], fun _ => false⟩).2.2 = true ∧
    handle_message ⟨some ⟨some "hi"⟩⟩
      ⟨BraveResp.ok none, OpenAIResp.ok [], fun _ => false⟩ = ([], true) ∧
    replies (handle_message ⟨some ⟨some "hi"⟩⟩
      ⟨BraveResp.ok none, OpenAIResp.ok [], fun _ => false⟩).1 = [] := by
  decide

/-- Claim C2 as amended: any exception raised inside steps 1-6 of the
pipeline is caught at the top level and one generic apology reply is
then attempted; provided that apology send does not itself raise,
exactly the apology is appended to the trace, nothing escapes, and the
chat receives at least one reply. -/
theorem C2_amended_apology (u : TgUpdate) (env : Env)
    (hraise : (handleBody u env).2.2 = true)
    (hsend : env.sendOk (handleBody u env).2.1 = true) :
    handle_message u env =
      ((handleBody u env).1 ++
        [Event.reply "Sorry, an error occurred. Please try again."], false) ∧
    replies (handle_message u env).1 ≠ [] := by
  have h1 : handle_message u env =
      ((handleBody u env).1 ++
        [Event.reply "Sorry, an error occurred. Please try again."], false) := by
    simp [handle_message, hraise, hsend]
  refine ⟨h1, ?_⟩
  rw [h1]
  simp only [replies_append]
  intro hcon
  have := congrArg List.length hcon
  simp [replies] at this

/-- Witness for the amended claim C2: text "hi" in an environment where
the first send raises and the apology send succeeds. -/
theorem C2_amended_apology_witness :
    handle_message ⟨some ⟨some "hi"⟩⟩
      ⟨BraveResp.ok none, OpenAIResp.ok [], fun k => decide (1 ≤ k)⟩ =
      ((handleBody ⟨some ⟨some "hi"⟩⟩
          ⟨BraveResp.ok none, OpenAIResp.ok [], fun k => decide (1 ≤ k)⟩).1 ++
        [Event.reply "Sorry, an error occurred. Please try again."], false) ∧
    replies (handle_message ⟨some ⟨some "hi"⟩⟩
      ⟨BraveResp.ok none, OpenAIResp.ok [], fun k => decide (1 ≤ k)⟩).1 ≠ [] :=
  C2_amended_apology _ _ (by decide) (by decide)

/-- Claim C3 counterexample: when the dispatch engine stop raises, the
shutdown sequence at src/main.py lines 43-44 never reaches the HTTP
client close (there is no try/finally), so it is not true that both
actions complete even if one raises. -/
theorem C3_counterexample :
    lifespan_shutdown true false = ([], true) ∧
    SEvent.clientClosed ∉ (lifespan_shutdown true false).1 ∧
    SEvent.botStopped ∉ (lifespan_shutdown true false).1 := by
  decide

/-- Claim C3 as amended: the shutdown runs the engine stop and then the
client close strictly in sequence; when neither raises, both complete,
and the client close is only ever performed after the engine stop has
completed — if the stop raises, the close is skipped. -/
theorem C3_amended_shutdown (s c : Bool) :
    ((lifespan_shutdown s c).2 = false →
      (lifespan_shutdown s c).1 = [SEvent.botStopped, SEvent.clientClosed]) ∧
    (SEvent.clientClosed ∈ (lifespan_shutdown s c).1 →
      SEvent.botStopped ∈ (lifespan_shutdown s c).1) := by
  cases s <;> cases c <;> exact ⟨by decide, by decide⟩

/-- Witness for the amended claim C3: when neither await raises, both
shutdown actions complete. -/
theorem C3_amended_shutdown_witness :
    (lifespan_shutdown false false).1 = [SEvent.botStopped, SEvent.clientClosed] :=
  (C3_amended_shutdown false false).1 (by decide)

/-- Claim C4: whenever the search stage returns a string matching the
case-insensitive failure-marker check ("error" or "unavailable" as a
substring), the pipeline relays that exact string to the chat — the
replies are the search acknowledgement followed verbatim by the search
output — and the summarization provider is never called. -/
theorem C4_sentinel_short_circuit (t : String) (env : Env)
    (ht : t ≠ "") (hq : pyStrip t ≠ "")
    (hmark : hasFailureMarker (braveResult env.brave) = true)
    (h0 : env.sendOk 0 = true) (h1 : env.sendOk 1 = true) :
    replies (handle_message ⟨some ⟨some t⟩⟩ env).1 =
      ["🔎 Searching...", braveResult env.brave] ∧
    openaiCalls (handle_message ⟨some ⟨some t⟩⟩ env).1 = 0 := by
  have hb := handleBody_marker t env ht hq h0 hmark h1
  rw [handle_message_eq_of_body _ _ _ _ hb]
  exact ⟨rfl, rfl⟩

/-- Witness for claim C4: input "xyz" with the search provider failing
at the transport level, so the search stage returns the sentinel
"Search service temporarily unavailable.", which is relayed verbatim
with no summarization call. -/
theorem C4_sentinel_short_circuit_witness :
    replies (handle_message ⟨some ⟨some "xyz"⟩⟩
      ⟨BraveResp.httpError, OpenAIResp.ok [], fun _ => true⟩).1 =
      ["🔎 Searching...", braveResult BraveResp.httpError] ∧
    openaiCalls (handle_message ⟨some ⟨some "xyz"⟩⟩
      ⟨BraveResp.httpError, OpenAIResp.ok [], fun _ => true⟩).1 = 0 :=
  C4_sentinel_short_circuit "xyz" _ (by decide) (by decide) (by decide) rfl rfl

/-- Claim C5: for every non-empty query and every possible provider
outcome, brave_search makes exactly one outbound call and returns the
fixed no-results sentinel, one of the two fixed failure sentinels, or a
digest of at most three lines, each rendering one result as
title - url with the placeholder defaults; no exception escapes (the
function is total over all outcomes). -/
theorem C5_brave_search_shape (q : String) (resp : BraveResp) (_hq : q ≠ "") :
    (brave_search q resp).1 = [Event.braveCall q] ∧
    ((brave_search q resp).2 = "No search results found." ∨
     (brave_search q resp).2 = "Search service temporarily unavailable." ∨
     (brave_search q resp).2 = "An error occurred during search." ∨
     ∃ rs : List BraveResult, rs ≠ [] ∧ rs.length ≤ 3 ∧
       (brave_search q resp).2 = String.intercalate "\n" (rs.map renderBraveResult)) := by
  refine ⟨rfl, ?_⟩
  cases resp with
  | httpError => exact Or.inr (Or.inl rfl)
  | otherExc => exact Or.inr (Or.inr (Or.inl rfl))
  | ok o =>
    cases o with
    | none => exact Or.inl rfl
    | some rs =>
      by_cases h : rs.isEmpty
      · left
        simp [brave_search, braveResult, h]
      · right; right; right
        refine ⟨rs.take 3, ?_, ?_, ?_⟩
        · have hne : rs ≠ [] := by
            intro hcon
            rw [hcon] at h
            exact h rfl
          intro hcon
          rcases List.take_eq_nil_iff.mp hcon with h3 | h3
          · exact absurd h3 (by decide)
          · exact hne h3
        · rw [List.length_take]
          exact min_le_left 3 rs.length
        · simp [brave_search, braveResult, h]

/-- Witness for claim C5: the query "lean" with a response body lacking
the results keys yields the no-results sentinel after one call. -/
theorem C5_brave_search_shape_witness :
    (brave_search "lean" (BraveResp.ok none)).1 = [Event.braveCall "lean"] ∧
    ((brave_search "lean" (BraveResp.ok none)).2 = "No search results found." ∨
     (brave_search "lean" (BraveResp.ok none)).2 = "Search service temporarily unavailable." ∨
     (brave_search "lean" (BraveResp.ok none)).2 = "An error occurred during search." ∨
     ∃ rs : List BraveResult, rs ≠ [] ∧ rs.length ≤ 3 ∧
       (brave_search "lean" (BraveResp.ok none)).2 =
         String.intercalate "\n" (rs.map renderBraveResult)) :=
  C5_brave_search_shape "lean" (BraveResp.ok none) (by decide)

/-- Claim C6: for every input text and every possible provider outcome,
summarize_with_openai returns the content of the first generated
choice, the fixed no-choices sentinel, or one of the fixed failure
sentinels; no exception escapes (the function is total over all
outcomes). -/
theorem C6_summarize_shape (text : String) (resp : OpenAIResp) :
    (summarize_with_openai text resp).1 = [Event.openaiCall text] ∧
    ((∃ c rest, resp = OpenAIResp.ok (some c :: rest) ∧
        (summarize_with_openai text resp).2 = c) ∨
     (summarize_with_openai text resp).2 = "Unable to generate summary." ∨
     (summarize_with_openai text resp).2 = "Summary service temporarily unavailable." ∨
     (summarize_with_openai text resp).2 = "An error occurred while generating summary.") := by
  refine ⟨rfl, ?_⟩
  cases resp with
  | httpError => exact Or.inr (Or.inr (Or.inl rfl))
  | otherExc => exact Or.inr (Or.inr (Or.inr rfl))
  | ok choices =>
    rcases choices with _ | ⟨c0, rest⟩
    · exact Or.inr (Or.inl rfl)
    · rcases c0 with _ | c
      · exact Or.inr (Or.inr (Or.inr rfl))
      · exact Or.inl ⟨c, rest, rfl, rfl⟩

/-- Claim C7: when the text is non-blank, the search result does not
match the failure-marker check, and the three sends succeed, exactly
three chat replies are sent, in order: the search acknowledgement, the
summarize acknowledgement, and the summarization output. -/
theorem C7_three_replies_in_order (t : String) (env : Env)
    (ht : t ≠ "") (hq : pyStrip t ≠ "")
    (hmark : hasFailureMarker (braveResult env.brave) = false)
    (h0 : env.sendOk 0 = true) (h1 : env.sendOk 1 = true) (h2 : env.sendOk 2 = true) :
    replies (handle_message ⟨some ⟨some t⟩⟩ env).1 =
      ["🔎 Searching...", "💡 Generating summary...", openaiResult env.openai] := by
  have hb := handleBody_success t env ht hq h0 hmark h1 h2
  rw [handle_message_eq_of_body _ _ _ _ hb]
  rfl

/-- Witness for claim C7: text "hello", one search result titled T at
url U, and a provider summary S; the chat receives exactly the two
acknowledgements and S, in order. -/
theorem C7_three_replies_in_order_witness :
    replies (handle_message ⟨some ⟨some "hello"⟩⟩
      ⟨BraveResp.ok (some [⟨some "T", some "U"⟩]), OpenAIResp.ok [some "S"], fun _ => true⟩).1 =
      ["🔎 Searching...", "💡 Generating summary...", openaiResult (OpenAIResp.ok [some "S"])] :=
  C7_three_replies_in_order "hello" _ (by decide) (by decide) (by decide) rfl rfl rfl

/-- Claim C8 counterexample: a message whose text is the empty string.
The empty string is empty after trimming, yet in Python it is falsy, so
the guard at src/main.py line 120 returns silently: zero replies are
sent (the claim requires exactly one reply "Please send a search
query."). The zero-provider-calls part holds. -/
theorem C8_counterexample :
    pyStrip "" = "" ∧
    handle_message ⟨some ⟨some ""⟩⟩
      ⟨BraveResp.ok none, OpenAIResp.ok [], fun _ => true⟩ = ([], false) ∧
    replies (handle_message ⟨some ⟨some ""⟩⟩
      ⟨BraveResp.ok none, OpenAIResp.ok [], fun _ => true⟩).1 = [] := by
  decide

/-- Claim C8 as amended: for every inbound message whose text is
non-empty but empty after trimming (whitespace-only), with the prompt
send succeeding, the pipeline sends exactly one reply, "Please send a
search query.", and makes zero outbound calls to either provider; a
message whose text is the empty string is instead rejected silently
with no reply and no calls. -/
theorem C8_amended_blank_prompt (t : String) (env : Env)
    (ht : t ≠ "") (hq : pyStrip t = "") (h0 : env.sendOk 0 = true) :
    replies (handle_message ⟨some ⟨some t⟩⟩ env).1 = ["Please send a search query."] ∧
    braveCalls (handle_message ⟨some ⟨some t⟩⟩ env).1 = 0 ∧
    openaiCalls (handle_message ⟨some ⟨some t⟩⟩ env).1 = 0 := by
  have hb := handleBody_prompt t env ht hq h0
  rw [handle_message_eq_of_body _ _ _ _ hb]
  exact ⟨rfl, rfl, rfl⟩

/-- Witness for the amended claim C8: a single-space text. -/
theorem C8_amended_blank_prompt_witness :
    replies (handle_message ⟨some ⟨some " "⟩⟩
      ⟨BraveResp.ok none, OpenAIResp.ok [], fun _ => true⟩).1 =
      ["Please send a search query."] ∧
    braveCalls (handle_message ⟨some ⟨some " "⟩⟩
      ⟨BraveResp.ok none, OpenAIResp.ok [], fun _ => true⟩).1 = 0 ∧
    openaiCalls (handle_message ⟨some ⟨some " "⟩⟩
      ⟨BraveResp.ok none, OpenAIResp.ok [], fun _ => true⟩).1 = 0 :=
  C8_amended_blank_prompt " " _ (by decide) (by decide) rfl

/-- Claim C9: for every inbound update that carries no text — no
message at all, or a message without a text field — the pipeline sends
zero replies, makes zero outbound calls to either provider, and lets
nothing escape. -/
theorem C9_no_text_silent (u : TgUpdate) (env : Env)
    (h : u.message = none ∨ ∃ m, u.message = some m ∧ m.text = none) :
    handle_message u env = ([], false) ∧
    replies (handle_message u env).1 = [] ∧
    braveCalls (handle_message u env).1 = 0 ∧
    openaiCalls (handle_message u env).1 = 0 := by
  have hb : handleBody u env = ([], 0, false) := by
    rcases h with h | ⟨m, hm, htext⟩
    · simp [handleBody, h]
    · simp [handleBody, hm, htext]
  have hm2 := handle_message_eq_of_body _ _ _ _ hb
  rw [hm2]
  exact ⟨rfl, rfl, rfl, rfl⟩

/-- Witness for claim C9: an update without a message. -/
theorem C9_no_text_silent_witness :
    handle_message ⟨none⟩ ⟨BraveResp.ok none, OpenAIResp.ok [], fun _ => true⟩ = ([], false) ∧
    replies (handle_message ⟨none⟩
      ⟨BraveResp.ok none, OpenAIResp.ok [], fun _ => true⟩).1 = [] ∧
    braveCalls (handle_message ⟨none⟩
      ⟨BraveResp.ok none, OpenAIResp.ok [], fun _ => true⟩).1 = 0 ∧
    openaiCalls (handle_message ⟨none⟩
      ⟨BraveResp.ok none, OpenAIResp.ok [], fun _ => true⟩).1 = 0 :=
  C9_no_text_silent _ _ (Or.inl rfl)

/-- Claim C10: when the search provider answers with a well-formed but
empty result set, the search stage returns "No search results found.",
that sentinel does not match the failure-marker check, and the pipeline
therefore goes on to call the summarization provider on that very
sentinel text and delivers the summarization output as the final
reply. -/
theorem C10_empty_results_summarized (t : String) (env : Env)
    (ht : t ≠ "") (hq : pyStrip t ≠ "")
    (hempty : env.brave = BraveResp.ok (some []))
    (h0 : env.sendOk 0 = true) (h1 : env.sendOk 1 = true) (h2 : env.sendOk 2 = true) :
    hasFailureMarker "No search results found." = false ∧
    (handle_message ⟨some ⟨some t⟩⟩ env).1 =
      [Event.reply "🔎 Searching...", Event.braveCall (pyStrip t),
       Event.reply "💡 Generating summary...", Event.openaiCall "No search results found.",
       Event.reply (openaiResult env.openai)] := by
  have hbr : braveResult env.brave = "No search results found." := by
    rw [hempty]
    rfl
  have hmark : hasFailureMarker (braveResult env.brave) = false := by
    rw [hbr]
    decide
  have hb := handleBody_success t env ht hq h0 hmark h1 h2
  rw [handle_message_eq_of_body _ _ _ _ hb, hbr]
  exact ⟨by decide, rfl⟩

/-- Witness for claim C10: text "cats" with an empty result set; the
summarization provider is called on the no-results sentinel and its
output is the final reply. -/
theorem C10_empty_results_summarized_witness :
    hasFailureMarker "No search results found." = false ∧
    (handle_message ⟨some ⟨some "cats"⟩⟩
      ⟨BraveResp.ok (some []), OpenAIResp.ok [some "S"], fun _ => true⟩).1 =
      [Event.reply "🔎 Searching...", Event.braveCall (pyStrip "cats"),
       Event.reply "💡 Generating summary...", Event.openaiCall "No search results found.",
       Event.reply (openaiResult (OpenAIResp.ok [some "S"]))] :=
  C10_empty_results_summarized "cats" _ (by decide) (by decide) rfl rfl rfl rfl
